import Mathlib

/-!
Verification of the CompWise-CTC payroll calculation engine.

The engine lives in three near-identical pure functions in the frontend:
`usePayrollCalculator` in `Calculator1.jsx`, `calculatePayroll` in
`Calculator2.jsx`, and `calculatePayroll` in `EmployeeManager.jsx` (the last
one additionally supports custom earnings/deductions line items).  All three
share a helper `computeSlabTax` whose three copies are textually identical.

JavaScript numbers are modelled as rationals (`ℚ`); `Math.round` is
round-half-up toward positive infinity, i.e. `⌊q + 1/2⌋`; the `Infinity`
sentinel used as the last slab boundary is modelled as `Option ℚ` with
`none` standing for `Infinity`.  The JS idiom `x || 0` on an already-numeric
field is the identity in this model and is dropped.
-/

namespace CompWise

/-- JavaScript `Math.round`: nearest integer, ties rounded toward `+∞`. -/
def jround (q : ℚ) : ℤ := ⌊q + 1/2⌋

/-- `const clamp = (v, lo, hi) => Math.min(Math.max(v, lo), hi)` (all three files). -/
def clamp (v lo hi : ℚ) : ℚ := min (max v lo) hi

/-- One tax slab `{ upto, rate }`; `upto = none` models `upto: Infinity`. -/
structure Slab where
  upto : Option ℚ
  rate : ℚ
deriving DecidableEq

/-- `Math.min(annualTaxable, upto)` where `upto` may be `Infinity`. -/
def minUpto (t : ℚ) : Option ℚ → ℚ
  | none => t
  | some b => min t b

/-- Loop of `computeSlabTax`, carrying the accumulated `tax` and the previous
boundary `last`.  The `break` on `annualTaxable <= upto` is the early return;
a slab with `upto = Infinity` always satisfies the break condition. -/
def computeSlabTaxGo (annualTaxable : ℚ) : ℚ → ℚ → List Slab → ℚ
  | tax, _, [] => tax
  | tax, last, s :: rest =>
    let span := minUpto annualTaxable s.upto - last
    let tax1 := if 0 < span then tax + span * s.rate else tax
    match s.upto with
    | none => tax1
    | some b => if annualTaxable ≤ b then tax1 else computeSlabTaxGo annualTaxable tax1 b rest

/-- `function computeSlabTax(annualTaxable, slabs)` (identical in all three files). -/
def computeSlabTax (annualTaxable : ℚ) (slabs : List Slab) : ℚ :=
  computeSlabTaxGo annualTaxable 0 0 slabs

/-- `pf` sub-policy: `{ apply, employeeRate, vpfRate, restrictBaseToCeiling, wageCeiling }`. -/
structure PfPolicy where
  apply : Bool
  employeeRate : ℚ
  vpfRate : ℚ
  restrictBaseToCeiling : Bool
  wageCeiling : ℚ
deriving DecidableEq

/-- `esi` sub-policy: `{ apply, monthlyThreshold, employeeRate }`. -/
structure EsiPolicy where
  apply : Bool
  monthlyThreshold : ℚ
  employeeRate : ℚ
deriving DecidableEq

/-- `pt` sub-policy: `{ apply, monthlyAmount }`. -/
structure PtPolicy where
  apply : Bool
  monthlyAmount : ℚ
deriving DecidableEq

/-- The `regime` string field, which the code only ever compares to `"new"`. -/
inductive Regime where
  | new : Regime
  | old : Regime
deriving DecidableEq

/-- `tds` sub-policy. -/
structure TdsPolicy where
  apply : Bool
  regime : Regime
  standardDeduction : ℚ
  rebate87AThreshold : ℚ
  slabsNew : List Slab
  slabsOld : List Slab
  cessRate : ℚ
deriving DecidableEq

/-- The policy object (shape shared by all three files). -/
structure Policy where
  basicPctOfGross : ℚ
  hraPctOfBasic : ℚ
  pf : PfPolicy
  esi : EsiPolicy
  pt : PtPolicy
  tds : TdsPolicy
deriving DecidableEq

/-- `fixedAllowances: { conveyance, medical, lunch }`. -/
structure FixedAllowances where
  conveyance : ℚ
  medical : ℚ
  lunch : ℚ
deriving DecidableEq

/-- A custom earnings or deductions line item `{ name, amount }`. -/
structure CustomItem where
  name : String
  amount : ℚ
deriving DecidableEq

/-- Argument object of `EmployeeManager.jsx`'s `calculatePayroll`. -/
structure PayInput where
  monthlyGross : ℚ
  fixedAllowances : FixedAllowances
  policy : Policy
  monthDays : ℚ
  paymentDays : ℚ
  additionalExemptionsAnnual : ℚ
  customEarnings : List CustomItem
  customDeductions : List CustomItem
deriving DecidableEq

/-- Argument object of `Calculator1.jsx`'s `usePayrollCalculator` and
`Calculator2.jsx`'s `calculatePayroll` (no custom line items). -/
structure PayInput12 where
  monthlyGross : ℚ
  fixedAllowances : FixedAllowances
  policy : Policy
  monthDays : ℚ
  paymentDays : ℚ
  additionalExemptionsAnnual : ℚ
deriving DecidableEq

/-- The earnings record `{ basic, hra, special, conveyance, medical, lunch }`. -/
structure Earnings where
  basic : ℚ
  hra : ℚ
  special : ℚ
  conveyance : ℚ
  medical : ℚ
  lunch : ℚ
deriving DecidableEq

/-- The deductions record `{ pfEE, vpfEE, esiEE, pt, tds }`. -/
structure Deductions where
  pfEE : ℚ
  vpfEE : ℚ
  esiEE : ℚ
  pt : ℚ
  tds : ℚ
deriving DecidableEq

/-- The flags record `{ negativeNet, esiEligible, fixedTooHigh }`. -/
structure Flags where
  negativeNet : Bool
  esiEligible : Bool
  fixedTooHigh : Bool
deriving DecidableEq

/-- The `annual` part of the result (same shape in all three files). -/
structure Annual where
  earnings : Earnings
  gross : ℚ
  deductions : Deductions
  totalDeductions : ℚ
  netPay : ℚ
  taxProjected : ℚ
deriving DecidableEq

/-- The `monthly` part of the result for Calculator1/Calculator2. -/
structure Monthly12 where
  earnings : Earnings
  earningsFull : Earnings
  grossPayable : ℚ
  deductions : Deductions
  totalDeductions : ℚ
  netPay : ℚ
deriving DecidableEq

/-- The `monthly` part of the result for EmployeeManager (adds custom items). -/
structure MonthlyEM where
  earnings : Earnings
  earningsFull : Earnings
  grossPayable : ℚ
  deductions : Deductions
  totalDeductions : ℚ
  netPay : ℚ
  customEarnings : List CustomItem
  customDeductions : List CustomItem
  customEarningsTotal : ℚ
  customDeductionsTotal : ℚ
deriving DecidableEq

/-- Result of Calculator1/Calculator2. -/
structure Result12 where
  flags : Flags
  factor : ℚ
  monthly : Monthly12
  annual : Annual
deriving DecidableEq

/-- Result of EmployeeManager's `calculatePayroll`. -/
structure ResultEM where
  flags : Flags
  factor : ℚ
  monthly : MonthlyEM
  annual : Annual
deriving DecidableEq

/-! Named intermediates of `EmployeeManager.jsx`'s `calculatePayroll`
(lines 354-361), lifted to standalone definitions so that theorems can
speak about them directly.  Each mirrors the corresponding `const`. -/

/-- `const factor = clamp(paymentDays / Math.max(1, monthDays), 0, 1)`. -/
def factorOf (i : PayInput) : ℚ := clamp (i.paymentDays / max 1 i.monthDays) 0 1

/-- `const basicFull = Math.round(monthlyGross * p.basicPctOfGross)`. -/
def basicFull (i : PayInput) : ℤ := jround (i.monthlyGross * i.policy.basicPctOfGross)

/-- `const hraFull = Math.round(basicFull * p.hraPctOfBasic)`. -/
def hraFull (i : PayInput) : ℤ := jround ((basicFull i : ℚ) * i.policy.hraPctOfBasic)

/-- `const fixedFull = Math.round(conveyance + medical + lunch)`. -/
def fixedFull (i : PayInput) : ℤ :=
  jround (i.fixedAllowances.conveyance + i.fixedAllowances.medical + i.fixedAllowances.lunch)

/-- `const specialFullRaw = monthlyGross - (basicFull + hraFull + fixedFull)`. -/
def specialFullRaw (i : PayInput) : ℚ :=
  i.monthlyGross - ((basicFull i : ℚ) + (hraFull i : ℚ) + (fixedFull i : ℚ))

/-- `const specialFull = Math.round(Math.max(0, specialFullRaw))`. -/
def specialFull (i : PayInput) : ℤ := jround (max 0 (specialFullRaw i))

/-- The `annualTax` computed in the TDS block (0 when `p.tds.apply` is false). -/
def annualTaxOf (i : PayInput) : ℤ :=
  let p := i.policy
  if p.tds.apply then
    let annualGross := i.monthlyGross * 12
    let stdDed := p.tds.standardDeduction
    let allowedExemptions : ℚ :=
      if p.tds.regime = Regime.new then 0 else i.additionalExemptionsAnnual
    let taxable := max 0 (annualGross - stdDed - allowedExemptions)
    let slabs := if p.tds.regime = Regime.new then p.tds.slabsNew else p.tds.slabsOld
    let taxCore := computeSlabTax taxable slabs
    let taxCore2 :=
      if p.tds.regime = Regime.new ∧ taxable ≤ p.tds.rebate87AThreshold then 0 else taxCore
    jround (taxCore2 * (1 + p.tds.cessRate))
  else 0

/-- `tds = Math.round(annualTax / 12)` inside the TDS block (0 when not applied). -/
def tdsOf (i : PayInput) : ℤ :=
  if i.policy.tds.apply then jround ((annualTaxOf i : ℚ) / 12) else 0

/-- `function calculatePayroll({...})` of `EmployeeManager.jsx` (lines 343-449). -/
def calculatePayrollEM (i : PayInput) : ResultEM :=
  let p := i.policy
  let factor := factorOf i
  let bF : ℚ := (basicFull i : ℚ)
  let hF : ℚ := (hraFull i : ℚ)
  let fF : ℚ := (fixedFull i : ℚ)
  let sF : ℚ := (specialFull i : ℚ)
  let fixedTooHigh : Bool := decide (specialFullRaw i < 0)
  let basic : ℚ := (jround (bF * factor) : ℚ)
  let hra : ℚ := (jround (hF * factor) : ℚ)
  let special : ℚ := (jround (sF * factor) : ℚ)
  let conveyance := i.fixedAllowances.conveyance
  let medical := i.fixedAllowances.medical
  let lunch := i.fixedAllowances.lunch
  let customEarningsTotal := i.customEarnings.foldl (fun sum item => sum + item.amount) 0
  let monthlyGrossPayable := basic + hra + special + conveyance + medical + lunch + customEarningsTotal
  let pfBaseFull := bF
  let pfBase :=
    if p.pf.restrictBaseToCeiling then min (pfBaseFull * factor) p.pf.wageCeiling
    else pfBaseFull * factor
  let pfEE : ℚ := if p.pf.apply then (jround (pfBase * p.pf.employeeRate) : ℚ) else 0
  let vpfEE : ℚ :=
    if p.pf.apply = true ∧ 0 < p.pf.vpfRate then (jround (pfBase * p.pf.vpfRate) : ℚ) else 0
  let esiEligible : Bool := p.esi.apply && decide (i.monthlyGross ≤ p.esi.monthlyThreshold)
  let esiEE : ℚ := if esiEligible then (jround (monthlyGrossPayable * p.esi.employeeRate) : ℚ) else 0
  let pt : ℚ := if p.pt.apply then (jround p.pt.monthlyAmount : ℚ) else 0
  let annualTax : ℤ := annualTaxOf i
  let tds : ℤ := tdsOf i
  let customDeductionsTotal := i.customDeductions.foldl (fun sum item => sum + item.amount) 0
  let totalDeductions := pfEE + vpfEE + esiEE + pt + (tds : ℚ) + customDeductionsTotal
  let netPay := monthlyGrossPayable - totalDeductions
  let annualPfBase : ℚ := if p.pf.restrictBaseToCeiling then min bF p.pf.wageCeiling else bF
  let annualPfEE : ℚ := (if p.pf.apply then (jround (annualPfBase * p.pf.employeeRate) : ℚ) else 0) * 12
  let annualVpfEE : ℚ :=
    (if p.pf.apply = true ∧ 0 < p.pf.vpfRate then (jround (annualPfBase * p.pf.vpfRate) : ℚ) else 0) * 12
  let annualEsiEE : ℚ :=
    (if p.esi.apply && decide (i.monthlyGross ≤ p.esi.monthlyThreshold)
     then (jround ((bF + hF + sF + fF) * p.esi.employeeRate) : ℚ) else 0) * 12
  let annualPt : ℚ := (if p.pt.apply then (jround p.pt.monthlyAmount : ℚ) else 0) * 12
  let annualTds : ℚ := (tds : ℚ) * 12
  let annualTotalDeductions :=
    annualPfEE + annualVpfEE + annualEsiEE + annualPt + annualTds + customDeductionsTotal * 12
  let annualNet := (bF + hF + sF + fF + customEarningsTotal) * 12 - annualTotalDeductions
  { flags :=
      { negativeNet := decide (netPay < 0), esiEligible := esiEligible, fixedTooHigh := fixedTooHigh }
    factor := factor
    monthly :=
      { earnings :=
          { basic := basic, hra := hra, special := special
            conveyance := conveyance, medical := medical, lunch := lunch }
        earningsFull :=
          { basic := bF, hra := hF, special := sF
            conveyance := conveyance, medical := medical, lunch := lunch }
        grossPayable := monthlyGrossPayable
        deductions := { pfEE := pfEE, vpfEE := vpfEE, esiEE := esiEE, pt := pt, tds := (tds : ℚ) }
        totalDeductions := totalDeductions
        netPay := netPay
        customEarnings := i.customEarnings
        customDeductions := i.customDeductions
        customEarningsTotal := customEarningsTotal
        customDeductionsTotal := customDeductionsTotal }
    annual :=
      { earnings :=
          { basic := bF * 12, hra := hF * 12, special := sF * 12
            conveyance := conveyance * 12, medical := medical * 12, lunch := lunch * 12 }
        gross := i.monthlyGross * 12
        deductions :=
          { pfEE := annualPfEE, vpfEE := annualVpfEE, esiEE := annualEsiEE
            pt := annualPt, tds := annualTds }
        totalDeductions := annualTotalDeductions
        netPay := annualNet
        taxProjected := (annualTax : ℚ) } }

/-- `function calculatePayroll({...})` of `Calculator2.jsx` (lines 89-185):
same computation without custom earnings/deductions. -/
def calculatePayrollC2 (i : PayInput12) : Result12 :=
  let p := i.policy
  let factor := clamp (i.paymentDays / max 1 i.monthDays) 0 1
  let bFZ : ℤ := jround (i.monthlyGross * p.basicPctOfGross)
  let hFZ : ℤ := jround ((bFZ : ℚ) * p.hraPctOfBasic)
  let fFZ : ℤ :=
    jround (i.fixedAllowances.conveyance + i.fixedAllowances.medical + i.fixedAllowances.lunch)
  let specialFullRaw : ℚ := i.monthlyGross - ((bFZ : ℚ) + (hFZ : ℚ) + (fFZ : ℚ))
  let sFZ : ℤ := jround (max 0 specialFullRaw)
  let bF : ℚ := (bFZ : ℚ)
  let hF : ℚ := (hFZ : ℚ)
  let fF : ℚ := (fFZ : ℚ)
  let sF : ℚ := (sFZ : ℚ)
  let fixedTooHigh : Bool := decide (specialFullRaw < 0)
  let basic : ℚ := (jround (bF * factor) : ℚ)
  let hra : ℚ := (jround (hF * factor) : ℚ)
  let special : ℚ := (jround (sF * factor) : ℚ)
  let conveyance := i.fixedAllowances.conveyance
  let medical := i.fixedAllowances.medical
  let lunch := i.fixedAllowances.lunch
  let monthlyGrossPayable := basic + hra + special + conveyance + medical + lunch
  let pfBaseFull := bF
  let pfBase :=
    if p.pf.restrictBaseToCeiling then min (pfBaseFull * factor) p.pf.wageCeiling
    else pfBaseFull * factor
  let pfEE : ℚ := if p.pf.apply then (jround (pfBase * p.pf.employeeRate) : ℚ) else 0
  let vpfEE : ℚ :=
    if p.pf.apply = true ∧ 0 < p.pf.vpfRate then (jround (pfBase * p.pf.vpfRate) : ℚ) else 0
  let esiEligible : Bool := p.esi.apply && decide (i.monthlyGross ≤ p.esi.monthlyThreshold)
  let esiEE : ℚ := if esiEligible then (jround (monthlyGrossPayable * p.esi.employeeRate) : ℚ) else 0
  let pt : ℚ := if p.pt.apply then (jround p.pt.monthlyAmount : ℚ) else 0
  let annualTax : ℤ :=
    if p.tds.apply then
      let annualGross := i.monthlyGross * 12
      let stdDed := p.tds.standardDeduction
      let allowedExemptions : ℚ :=
        if p.tds.regime = Regime.new then 0 else i.additionalExemptionsAnnual
      let taxable := max 0 (annualGross - stdDed - allowedExemptions)
      let slabs := if p.tds.regime = Regime.new then p.tds.slabsNew else p.tds.slabsOld
      let taxCore := computeSlabTax taxable slabs
      let taxCore2 :=
        if p.tds.regime = Regime.new ∧ taxable ≤ p.tds.rebate87AThreshold then 0 else taxCore
      jround (taxCore2 * (1 + p.tds.cessRate))
    else 0
  let tds : ℤ := if p.tds.apply then jround ((annualTax : ℚ) / 12) else 0
  let totalDeductions := pfEE + vpfEE + esiEE + pt + (tds : ℚ)
  let netPay := monthlyGrossPayable - totalDeductions
  let annualPfBase : ℚ := if p.pf.restrictBaseToCeiling then min bF p.pf.wageCeiling else bF
  let annualPfEE : ℚ := (if p.pf.apply then (jround (annualPfBase * p.pf.employeeRate) : ℚ) else 0) * 12
  let annualVpfEE : ℚ :=
    (if p.pf.apply = true ∧ 0 < p.pf.vpfRate then (jround (annualPfBase * p.pf.vpfRate) : ℚ) else 0) * 12
  let annualEsiEE : ℚ :=
    (if p.esi.apply && decide (i.monthlyGross ≤ p.esi.monthlyThreshold)
     then (jround ((bF + hF + sF + fF) * p.esi.employeeRate) : ℚ) else 0) * 12
  let annualPt : ℚ := (if p.pt.apply then (jround p.pt.monthlyAmount : ℚ) else 0) * 12
  let annualTds : ℚ := (tds : ℚ) * 12
  let annualTotalDeductions := annualPfEE + annualVpfEE + annualEsiEE + annualPt + annualTds
  let annualNet := (bF + hF + sF + fF) * 12 - annualTotalDeductions
  { flags :=
      { negativeNet := decide (netPay < 0), esiEligible := esiEligible, fixedTooHigh := fixedTooHigh }
    factor := factor
    monthly :=
      { earnings :=
          { basic := basic, hra := hra, special := special
            conveyance := conveyance, medical := medical, lunch := lunch }
        earningsFull :=
          { basic := bF, hra := hF, special := sF
            conveyance := conveyance, medical := medical, lunch := lunch }
        grossPayable := monthlyGrossPayable
        deductions := { pfEE := pfEE, vpfEE := vpfEE, esiEE := esiEE, pt := pt, tds := (tds : ℚ) }
        totalDeductions := totalDeductions
        netPay := netPay }
    annual :=
      { earnings :=
          { basic := bF * 12, hra := hF * 12, special := sF * 12
            conveyance := conveyance * 12, medical := medical * 12, lunch := lunch * 12 }
        gross := i.monthlyGross * 12
        deductions :=
          { pfEE := annualPfEE, vpfEE := annualVpfEE, esiEE := annualEsiEE
            pt := annualPt, tds := annualTds }
        totalDeductions := annualTotalDeductions
        netPay := annualNet
        taxProjected := (annualTax : ℚ) } }

/-- `function usePayrollCalculator({...})` of `Calculator1.jsx` (lines 91-199):
its memoised body is token-for-token the computation of `Calculator2.jsx`'s
`calculatePayroll`, so the embedding repeats the same computation. -/
def usePayrollCalculatorC1 (i : PayInput12) : Result12 :=
  let p := i.policy
  let factor := clamp (i.paymentDays / max 1 i.monthDays) 0 1
  let bFZ : ℤ := jround (i.monthlyGross * p.basicPctOfGross)
  let hFZ : ℤ := jround ((bFZ : ℚ) * p.hraPctOfBasic)
  let fFZ : ℤ :=
    jround (i.fixedAllowances.conveyance + i.fixedAllowances.medical + i.fixedAllowances.lunch)
  let specialFullRaw : ℚ := i.monthlyGross - ((bFZ : ℚ) + (hFZ : ℚ) + (fFZ : ℚ))
  let sFZ : ℤ := jround (max 0 specialFullRaw)
  let bF : ℚ := (bFZ : ℚ)
  let hF : ℚ := (hFZ : ℚ)
  let fF : ℚ := (fFZ : ℚ)
  let sF : ℚ := (sFZ : ℚ)
  let fixedTooHigh : Bool := decide (specialFullRaw < 0)
  let basic : ℚ := (jround (bF * factor) : ℚ)
  let hra : ℚ := (jround (hF * factor) : ℚ)
  let special : ℚ := (jround (sF * factor) : ℚ)
  let conveyance := i.fixedAllowances.conveyance
  let medical := i.fixedAllowances.medical
  let lunch := i.fixedAllowances.lunch
  let monthlyGrossPayable := basic + hra + special + conveyance + medical + lunch
  let pfBaseFull := bF
  let pfBase :=
    if p.pf.restrictBaseToCeiling then min (pfBaseFull * factor) p.pf.wageCeiling
    else pfBaseFull * factor
  let pfEE : ℚ := if p.pf.apply then (jround (pfBase * p.pf.employeeRate) : ℚ) else 0
  let vpfEE : ℚ :=
    if p.pf.apply = true ∧ 0 < p.pf.vpfRate then (jround (pfBase * p.pf.vpfRate) : ℚ) else 0
  let esiEligible : Bool := p.esi.apply && decide (i.monthlyGross ≤ p.esi.monthlyThreshold)
  let esiEE : ℚ := if esiEligible then (jround (monthlyGrossPayable * p.esi.employeeRate) : ℚ) else 0
  let pt : ℚ := if p.pt.apply then (jround p.pt.monthlyAmount : ℚ) else 0
  let annualTax : ℤ :=
    if p.tds.apply then
      let annualGross := i.monthlyGross * 12
      let stdDed := p.tds.standardDeduction
      let allowedExemptions : ℚ :=
        if p.tds.regime = Regime.new then 0 else i.additionalExemptionsAnnual
      let taxable := max 0 (annualGross - stdDed - allowedExemptions)
      let slabs := if p.tds.regime = Regime.new then p.tds.slabsNew else p.tds.slabsOld
      let taxCore := computeSlabTax taxable slabs
      let taxCore2 :=
        if p.tds.regime = Regime.new ∧ taxable ≤ p.tds.rebate87AThreshold then 0 else taxCore
      jround (taxCore2 * (1 + p.tds.cessRate))
    else 0
  let tds : ℤ := if p.tds.apply then jround ((annualTax : ℚ) / 12) else 0
  let totalDeductions := pfEE + vpfEE + esiEE + pt + (tds : ℚ)
  let netPay := monthlyGrossPayable - totalDeductions
  let annualPfBase : ℚ := if p.pf.restrictBaseToCeiling then min bF p.pf.wageCeiling else bF
  let annualPfEE : ℚ := (if p.pf.apply then (jround (annualPfBase * p.pf.employeeRate) : ℚ) else 0) * 12
  let annualVpfEE : ℚ :=
    (if p.pf.apply = true ∧ 0 < p.pf.vpfRate then (jround (annualPfBase * p.pf.vpfRate) : ℚ) else 0) * 12
  let annualEsiEE : ℚ :=
    (if p.esi.apply && decide (i.monthlyGross ≤ p.esi.monthlyThreshold)
     then (jround ((bF + hF + sF + fF) * p.esi.employeeRate) : ℚ) else 0) * 12
  let annualPt : ℚ := (if p.pt.apply then (jround p.pt.monthlyAmount : ℚ) else 0) * 12
  let annualTds : ℚ := (tds : ℚ) * 12
  let annualTotalDeductions := annualPfEE + annualVpfEE + annualEsiEE + annualPt + annualTds
  let annualNet := (bF + hF + sF + fF) * 12 - annualTotalDeductions
  { flags :=
      { negativeNet := decide (netPay < 0), esiEligible := esiEligible, fixedTooHigh := fixedTooHigh }
    factor := factor
    monthly :=
      { earnings :=
          { basic := basic, hra := hra, special := special
            conveyance := conveyance, medical := medical, lunch := lunch }
        earningsFull :=
          { basic := bF, hra := hF, special := sF
            conveyance := conveyance, medical := medical, lunch := lunch }
        grossPayable := monthlyGrossPayable
        deductions := { pfEE := pfEE, vpfEE := vpfEE, esiEE := esiEE, pt := pt, tds := (tds : ℚ) }
        totalDeductions := totalDeductions
        netPay := netPay }
    annual :=
      { earnings :=
          { basic := bF * 12, hra := hF * 12, special := sF * 12
            conveyance := conveyance * 12, medical := medical * 12, lunch := lunch * 12 }
        gross := i.monthlyGross * 12
        deductions :=
          { pfEE := annualPfEE, vpfEE := annualVpfEE, esiEE := annualEsiEE
            pt := annualPt, tds := annualTds }
        totalDeductions := annualTotalDeductions
        netPay := annualNet
        taxProjected := (annualTax : ℚ) } }

/-- Embed a Calculator1/Calculator2 input as an EmployeeManager input with the
defaulted empty custom earnings/deductions lists. -/
def toInputEM (i : PayInput12) : PayInput :=
  { monthlyGross := i.monthlyGross
    fixedAllowances := i.fixedAllowances
    policy := i.policy
    monthDays := i.monthDays
    paymentDays := i.paymentDays
    additionalExemptionsAnnual := i.additionalExemptionsAnnual
    customEarnings := []
    customDeductions := [] }

/-- `slabsNew` of the default policy (identical in all three files). -/
def defaultSlabsNew : List Slab :=
  [⟨some 300000, 0⟩, ⟨some 600000, 0.05⟩, ⟨some 900000, 0.10⟩,
   ⟨some 1200000, 0.15⟩, ⟨some 1500000, 0.20⟩, ⟨none, 0.30⟩]

/-- `slabsOld` of the default policy (identical in all three files). -/
def defaultSlabsOld : List Slab :=
  [⟨some 250000, 0⟩, ⟨some 500000, 0.05⟩, ⟨some 1000000, 0.20⟩, ⟨none, 0.30⟩]

/-- The `defaultPolicy` object (identical in all three files). -/
def defaultPolicy : Policy :=
  { basicPctOfGross := 0.40
    hraPctOfBasic := 0.50
    pf :=
      { apply := true, employeeRate := 0.12, vpfRate := 0.00
        restrictBaseToCeiling := true, wageCeiling := 15000 }
    esi := { apply := false, monthlyThreshold := 21000, employeeRate := 0.0075 }
    pt := { apply := true, monthlyAmount := 200 }
    tds :=
      { apply := true, regime := Regime.new, standardDeduction := 50000
        rebate87AThreshold := 700000, slabsNew := defaultSlabsNew
        slabsOld := defaultSlabsOld, cessRate := 0.04 } }

/-! Validity predicates for slab tables, as stated in the spec (ordered
strictly ascending by `upToAmount`, unbounded last slab, non-negative
rates). -/

/-- Strict ascending order on slab boundaries; `Infinity` is above every
finite boundary and no boundary is above `Infinity`. -/
def uptoLT : Option ℚ → Option ℚ → Prop
  | some a, some b => a < b
  | some _, none => True
  | none, _ => False

/-- The slab table is sorted strictly ascending by its `upto` boundaries. -/
def slabsStrictAsc : List Slab → Prop
  | [] => True
  | [_] => True
  | s :: t :: rest => uptoLT s.upto t.upto ∧ slabsStrictAsc (t :: rest)

/-- The last slab of the table is the unbounded (`Infinity`) one. -/
def lastUnbounded : List Slab → Prop
  | [] => False
  | [s] => s.upto = none
  | _ :: rest => lastUnbounded rest

/-- All slab rates are non-negative. -/
def ratesNonneg (slabs : List Slab) : Prop := ∀ s ∈ slabs, 0 ≤ s.rate

/-! Concrete inputs used to exercise the theorems; all use the default
policy and the default fixed allowances of the UI unless a scenario
prescribes otherwise. -/

/-- Spec scenario: gross 40000, default policy, default fixed allowances,
full attendance. -/
def inputStd : PayInput :=
  { monthlyGross := 40000
    fixedAllowances := { conveyance := 1600, medical := 1250, lunch := 1150 }
    policy := defaultPolicy
    monthDays := 30
    paymentDays := 30
    additionalExemptionsAnnual := 0
    customEarnings := []
    customDeductions := [] }

/-- A fractional monthly gross (as produced by the annual-input mode's
division by 12), with no fixed allowances. -/
def inputFrac : PayInput :=
  { monthlyGross := 40000.5
    fixedAllowances := { conveyance := 0, medical := 0, lunch := 0 }
    policy := defaultPolicy
    monthDays := 30
    paymentDays := 30
    additionalExemptionsAnnual := 0
    customEarnings := []
    customDeductions := [] }

/-- Fixed allowances far in excess of the gross, to exercise the clamping of
the Special Allowance. -/
def inputClamp : PayInput :=
  { monthlyGross := 10000
    fixedAllowances := { conveyance := 20000, medical := 0, lunch := 0 }
    policy := defaultPolicy
    monthDays := 30
    paymentDays := 30
    additionalExemptionsAnnual := 0
    customEarnings := []
    customDeductions := [] }

/-- Spec scenario: 600000 annual = 50000 monthly, new regime, standard
deduction 50000, rebate threshold 700000. -/
def inputRebate : PayInput :=
  { monthlyGross := 50000
    fixedAllowances := { conveyance := 1600, medical := 1250, lunch := 1150 }
    policy := defaultPolicy
    monthDays := 30
    paymentDays := 30
    additionalExemptionsAnnual := 0
    customEarnings := []
    customDeductions := [] }

/-- Spec scenario: gross 100000, PF employee rate 0.12, wage ceiling 15000,
base restricted to the ceiling, full attendance. -/
def inputPf : PayInput :=
  { monthlyGross := 100000
    fixedAllowances := { conveyance := 0, medical := 0, lunch := 0 }
    policy := defaultPolicy
    monthDays := 30
    paymentDays := 30
    additionalExemptionsAnnual := 0
    customEarnings := []
    customDeductions := [] }

/-! Basic lemmas about `jround` and the slab-tax loop. -/

/-- The floor of one half is zero. -/
theorem floor_one_half : ⌊(1/2 : ℚ)⌋ = 0 := by
  rw [Int.floor_eq_iff]
  norm_num

/-- `jround` of an integer is that integer. -/
theorem jround_intCast (n : ℤ) : jround ((n : ℤ) : ℚ) = n := by
  unfold jround
  rw [Int.floor_int_add, floor_one_half, add_zero]

/-- `jround 0 = 0`. -/
theorem jround_zero : jround 0 = 0 := by
  have h := jround_intCast 0
  simpa using h

/-- Evaluation rule for `jround` used on concrete rationals. -/
theorem jround_eq (q : ℚ) (n : ℤ) (h1 : (n : ℚ) ≤ q + 1/2) (h2 : q + 1/2 < (n : ℚ) + 1) :
    jround q = n := by
  unfold jround
  rw [Int.floor_eq_iff]
  exact ⟨h1, h2⟩

/-- The slab-tax loop is affine in the accumulated tax. -/
theorem computeSlabTaxGo_shift (t : ℚ) :
    ∀ (slabs : List Slab) (tax last : ℚ),
      computeSlabTaxGo t tax last slabs = tax + computeSlabTaxGo t 0 last slabs := by
  intro slabs
  induction slabs with
  | nil => intro tax last; simp [computeSlabTaxGo]
  | cons s rest ih =>
    intro tax last
    obtain ⟨u, r⟩ := s
    cases u with
    | none =>
      by_cases h : 0 < minUpto t none - last <;> simp [computeSlabTaxGo, h]
    | some b =>
      simp only [computeSlabTaxGo]
      by_cases h2 : t ≤ b
      · by_cases h : 0 < minUpto t (some b) - last <;> simp [h, h2]
      · rw [if_neg h2, if_neg h2]
        by_cases h : 0 < minUpto t (some b) - last
        · rw [if_pos h, if_pos h,
            ih (tax + (minUpto t (some b) - last) * r) b,
            ih (0 + (minUpto t (some b) - last) * r) b]
          ring
        · rw [if_neg h, if_neg h, ih tax b]

/-- With non-negative rates the slab-tax loop never decreases the
accumulated tax. -/
theorem computeSlabTaxGo_le (t : ℚ) :
    ∀ (slabs : List Slab), ratesNonneg slabs →
      ∀ tax last, tax ≤ computeSlabTaxGo t tax last slabs := by
  intro slabs
  induction slabs with
  | nil => intro _ tax last; simp [computeSlabTaxGo]
  | cons s rest ih =>
    intro hr tax last
    have hrests : ratesNonneg rest := fun x hx => hr x (List.mem_cons_of_mem _ hx)
    have hrate : 0 ≤ s.rate := hr s (List.mem_cons_self _ _)
    obtain ⟨u, r⟩ := s
    have hrate' : (0:ℚ) ≤ r := hrate
    cases u with
    | none =>
      by_cases h : 0 < minUpto t none - last <;> simp [computeSlabTaxGo, h]
      nlinarith
    | some b =>
      by_cases h : 0 < minUpto t (some b) - last <;> by_cases h2 : t ≤ b <;>
        simp [computeSlabTaxGo, h, h2]
      · nlinarith
      · have := ih hrests (tax + (minUpto t (some b) - last) * r) b
        nlinarith
      · exact ih hrests tax b

/-- With non-negative rates the slab-tax loop value at accumulator `0` is
monotone in the taxable amount. -/
theorem computeSlabTaxGo_mono (t1 t2 : ℚ) (h12 : t1 ≤ t2) :
    ∀ (slabs : List Slab), ratesNonneg slabs →
      ∀ last, computeSlabTaxGo t1 0 last slabs ≤ computeSlabTaxGo t2 0 last slabs := by
  intro slabs
  induction slabs with
  | nil => intro _ last; simp [computeSlabTaxGo]
  | cons s rest ih =>
    intro hr last
    have hrests : ratesNonneg rest := fun x hx => hr x (List.mem_cons_of_mem _ hx)
    have hrate : 0 ≤ s.rate := hr s (List.mem_cons_self _ _)
    obtain ⟨u, r⟩ := s
    have hrate' : (0:ℚ) ≤ r := hrate
    have hmin : minUpto t1 u ≤ minUpto t2 u := by
      cases u with
      | none => exact h12
      | some b => exact min_le_min h12 le_rfl
    have hterm : (if 0 < minUpto t1 u - last then 0 + (minUpto t1 u - last) * r else 0) ≤
        (if 0 < minUpto t2 u - last then 0 + (minUpto t2 u - last) * r else 0) := by
      by_cases ha : 0 < minUpto t1 u - last
      · have hb : 0 < minUpto t2 u - last := by linarith
        rw [if_pos ha, if_pos hb]
        nlinarith
      · rw [if_neg ha]
        by_cases hb : 0 < minUpto t2 u - last
        · rw [if_pos hb]; nlinarith
        · rw [if_neg hb]
    cases u with
    | none =>
      simpa [computeSlabTaxGo] using hterm
    | some b =>
      simp only [computeSlabTaxGo]
      by_cases hb2 : t2 ≤ b
      · have hb1 : t1 ≤ b := le_trans h12 hb2
        rw [if_pos hb1, if_pos hb2]
        exact hterm
      · by_cases hb1 : t1 ≤ b
        · rw [if_pos hb1, if_neg hb2]
          rw [computeSlabTaxGo_shift t2 rest _ b]
          have hrest0 : (0:ℚ) ≤ computeSlabTaxGo t2 0 b rest := computeSlabTaxGo_le t2 rest hrests 0 b
          calc (if 0 < minUpto t1 (some b) - last then 0 + (minUpto t1 (some b) - last) * r else 0)
              ≤ (if 0 < minUpto t2 (some b) - last then 0 + (minUpto t2 (some b) - last) * r else 0) := hterm
            _ ≤ (if 0 < minUpto t2 (some b) - last then 0 + (minUpto t2 (some b) - last) * r else 0) +
                computeSlabTaxGo t2 0 b rest := le_add_of_nonneg_right hrest0
        · rw [if_neg hb1, if_neg hb2]
          have heq : minUpto t1 (some b) = minUpto t2 (some b) := by
            have e1 : minUpto t1 (some b) = b := min_eq_right (le_of_not_le hb1)
            have e2 : minUpto t2 (some b) = b := min_eq_right (le_of_not_le hb2)
            rw [e1, e2]
          rw [computeSlabTaxGo_shift t1 rest _ b, computeSlabTaxGo_shift t2 rest _ b, heq]
          exact add_le_add le_rfl (ih hrests b)

/--
C5: for every slab table sorted strictly ascending by its boundaries, with an
unbounded last slab and non-negative rates, `computeSlabTax` is monotonically
non-decreasing in the taxable amount, and its result is non-negative for every
non-negative taxable amount.
-/
theorem computeSlabTax_monotone_nonneg (slabs : List Slab)
    (_hasc : slabsStrictAsc slabs) (_hlast : lastUnbounded slabs)
    (hrates : ratesNonneg slabs) :
    (∀ t1 t2 : ℚ, 0 ≤ t1 → t1 ≤ t2 →
      computeSlabTax t1 slabs ≤ computeSlabTax t2 slabs) ∧
    (∀ t : ℚ, 0 ≤ t → 0 ≤ computeSlabTax t slabs) := by
  constructor
  · intro t1 t2 _ h12
    exact computeSlabTaxGo_mono t1 t2 h12 slabs hrates 0
  · intro t _
    exact computeSlabTaxGo_le t slabs hrates 0 0

/--
C1 (amended): for every input whose `monthlyGross` is a whole (integer) money
amount, whenever the residual `specialFullRaw` is non-negative the full-month
split reconstructs the gross exactly:
`basicFull + hraFull + specialFull + fixedFull = monthlyGross`.
(For a non-integer `monthlyGross` the rounded Special Allowance makes the sum
miss the gross; see the counterexample.)
-/
theorem split_reconstructs_integer_gross (i : PayInput) (g : ℤ)
    (hg : i.monthlyGross = (g : ℚ)) (_hg0 : 0 ≤ i.monthlyGross)
    (hraw : 0 ≤ specialFullRaw i) :
    (basicFull i : ℚ) + (hraFull i : ℚ) + (specialFull i : ℚ) + (fixedFull i : ℚ) =
      i.monthlyGross := by
  have hval : specialFullRaw i = ((g - basicFull i - hraFull i - fixedFull i : ℤ) : ℚ) := by
    unfold specialFullRaw
    rw [hg]
    push_cast
    ring
  have hsp : specialFull i = g - basicFull i - hraFull i - fixedFull i := by
    unfold specialFull
    rw [max_eq_right hraw, hval, jround_intCast]
  rw [hsp, hg]
  push_cast
  ring

/--
C2: whenever `basicFull + hraFull + fixedFull` exceeds `monthlyGross`,
`calculatePayroll` still returns (totally), with the Special Allowance clamped
to zero and the `fixedTooHigh` flag set; when the sum does not exceed the
gross, the flag is false.
-/
theorem special_clamped_and_flag (i : PayInput) :
    (i.monthlyGross < (basicFull i : ℚ) + (hraFull i : ℚ) + (fixedFull i : ℚ) →
      (calculatePayrollEM i).monthly.earningsFull.special = 0 ∧
      (calculatePayrollEM i).flags.fixedTooHigh = true) ∧
    ((basicFull i : ℚ) + (hraFull i : ℚ) + (fixedFull i : ℚ) ≤ i.monthlyGross →
      (calculatePayrollEM i).flags.fixedTooHigh = false) := by
  constructor
  · intro h
    have hraw : specialFullRaw i < 0 := by
      unfold specialFullRaw
      linarith
    constructor
    · simp only [calculatePayrollEM]
      have hsp : specialFull i = 0 := by
        unfold specialFull
        rw [max_eq_left (le_of_lt hraw), jround_zero]
      rw [hsp]
      norm_num
    · simp only [calculatePayrollEM, decide_eq_true_eq]
      exact hraw
  · intro h
    have hraw : ¬ specialFullRaw i < 0 := by
      unfold specialFullRaw
      intro hc
      linarith
    simp only [calculatePayrollEM, decide_eq_false_iff_not]
    exact hraw

/--
C4: when PF applies, the employee PF contribution equals
`round(pfBase * employeeRate)` where `pfBase` is `basicFull` scaled by the
proration factor and, when `restrictBaseToCeiling` holds, capped at
`wageCeiling`; when PF does not apply, the contribution is 0.  The base is
derived from `basicFull`, never from the gross.
-/
theorem pf_contribution (i : PayInput) :
    (i.policy.pf.apply = true →
      (calculatePayrollEM i).monthly.deductions.pfEE =
        ((jround ((if i.policy.pf.restrictBaseToCeiling then
            min ((basicFull i : ℚ) * factorOf i) i.policy.pf.wageCeiling
          else (basicFull i : ℚ) * factorOf i) * i.policy.pf.employeeRate) : ℤ) : ℚ)) ∧
    (i.policy.pf.apply = false →
      (calculatePayrollEM i).monthly.deductions.pfEE = 0) := by
  constructor
  · intro h
    simp only [calculatePayrollEM, h, if_true]
  · intro h
    simp only [calculatePayrollEM, h]
    norm_num

/--
C6: the proration factor returned by `calculatePayroll` is
`clamp(paymentDays / max(1, monthDays), 0, 1)`; and when
`paymentDays = monthDays ≥ 1` the factor is 1 and the prorated basic, HRA and
special earnings equal their full-month counterparts.
-/
theorem proration_factor (i : PayInput) :
    (calculatePayrollEM i).factor = clamp (i.paymentDays / max 1 i.monthDays) 0 1 ∧
    (i.paymentDays = i.monthDays → 1 ≤ i.monthDays →
      (calculatePayrollEM i).factor = 1 ∧
      (calculatePayrollEM i).monthly.earnings.basic =
        (calculatePayrollEM i).monthly.earningsFull.basic ∧
      (calculatePayrollEM i).monthly.earnings.hra =
        (calculatePayrollEM i).monthly.earningsFull.hra ∧
      (calculatePayrollEM i).monthly.earnings.special =
        (calculatePayrollEM i).monthly.earningsFull.special) := by
  have hfac : (calculatePayrollEM i).factor = factorOf i := by
    simp only [calculatePayrollEM]
  constructor
  · rw [hfac]
    rfl
  · intro hpd hmd
    have hone : factorOf i = 1 := by
      unfold factorOf clamp
      rw [hpd, max_eq_right hmd, div_self (by linarith), max_eq_left (by norm_num : (0:ℚ) ≤ 1),
        min_self]
    refine ⟨by rw [hfac, hone], ?_, ?_, ?_⟩ <;>
      simp only [calculatePayrollEM, hone, mul_one, jround_intCast]

/--
C7: fixed allowances (conveyance, medical, lunch) and the custom
earnings/deductions totals are invariant under changes to `paymentDays`:
they are never prorated.
-/
theorem fixed_and_custom_not_prorated (i : PayInput) (d1 d2 : ℚ) :
    (calculatePayrollEM { i with paymentDays := d1 }).monthly.earnings.conveyance =
      (calculatePayrollEM { i with paymentDays := d2 }).monthly.earnings.conveyance ∧
    (calculatePayrollEM { i with paymentDays := d1 }).monthly.earnings.medical =
      (calculatePayrollEM { i with paymentDays := d2 }).monthly.earnings.medical ∧
    (calculatePayrollEM { i with paymentDays := d1 }).monthly.earnings.lunch =
      (calculatePayrollEM { i with paymentDays := d2 }).monthly.earnings.lunch ∧
    (calculatePayrollEM { i with paymentDays := d1 }).monthly.customEarningsTotal =
      (calculatePayrollEM { i with paymentDays := d2 }).monthly.customEarningsTotal ∧
    (calculatePayrollEM { i with paymentDays := d1 }).monthly.customDeductionsTotal =
      (calculatePayrollEM { i with paymentDays := d2 }).monthly.customDeductionsTotal := by
  exact ⟨rfl, rfl, rfl, rfl, rfl⟩

/--
C3: when income tax applies under the "new" regime and the taxable income
`max(0, monthlyGross*12 - standardDeduction)` is at most the rebate
threshold, `calculatePayroll` returns annual tax 0 and monthly TDS 0,
regardless of the shape of the slab table.
-/
theorem new_regime_rebate_zero_tax (i : PayInput)
    (happ : i.policy.tds.apply = true)
    (hreg : i.policy.tds.regime = Regime.new)
    (hle : max 0 (i.monthlyGross * 12 - i.policy.tds.standardDeduction) ≤
      i.policy.tds.rebate87AThreshold) :
    (calculatePayrollEM i).annual.taxProjected = 0 ∧
    (calculatePayrollEM i).monthly.deductions.tds = 0 := by
  have htax : annualTaxOf i = 0 := by
    simp only [annualTaxOf, happ, hreg, eq_self_iff_true, if_true, true_and, sub_zero]
    rw [if_pos hle, zero_mul, jround_zero]
  have htds : tdsOf i = 0 := by
    simp only [tdsOf, happ, if_true, htax]
    norm_num [jround_zero]
  constructor
  · simp only [calculatePayrollEM, htax, Int.cast_zero]
  · simp only [calculatePayrollEM, htds, Int.cast_zero]

/--
C8: under the "new" tax regime the whole result of `calculatePayroll` is
independent of `additionalExemptionsAnnual`: two inputs differing only in
that field yield identical results.
-/
theorem new_regime_ignores_exemptions (i : PayInput) (e1 e2 : ℚ)
    (hreg : i.policy.tds.regime = Regime.new) :
    calculatePayrollEM { i with additionalExemptionsAnnual := e1 } =
      calculatePayrollEM { i with additionalExemptionsAnnual := e2 } := by
  obtain ⟨g, f, p, md, pd, ex, ce, cd⟩ := i
  simp only at hreg
  simp only [calculatePayrollEM, annualTaxOf, tdsOf, factorOf, basicFull, hraFull, fixedFull,
    specialFullRaw, specialFull, hreg, eq_self_iff_true, if_true]

/--
C10: when income tax applies, the annual-view TDS deduction is twelve times
the rounded monthly TDS, `12 * round(annualTax / 12)`, while
`annual.taxProjected` is `annualTax` itself; the two differ whenever
`annualTax` is not a multiple of 12, and their absolute difference is at
most 6.
-/
theorem annual_tds_vs_tax_projected (i : PayInput)
    (happ : i.policy.tds.apply = true) :
    (calculatePayrollEM i).annual.deductions.tds =
      ((12 * jround ((annualTaxOf i : ℚ) / 12) : ℤ) : ℚ) ∧
    (calculatePayrollEM i).annual.taxProjected = ((annualTaxOf i : ℤ) : ℚ) ∧
    (¬ (12 : ℤ) ∣ annualTaxOf i →
      (calculatePayrollEM i).annual.deductions.tds ≠
        (calculatePayrollEM i).annual.taxProjected) ∧
    |(calculatePayrollEM i).annual.deductions.tds -
        (calculatePayrollEM i).annual.taxProjected| ≤ 6 := by
  have htds : tdsOf i = jround ((annualTaxOf i : ℚ) / 12) := by
    unfold tdsOf
    rw [happ, if_pos rfl]
  have hdedtds : (calculatePayrollEM i).annual.deductions.tds = ((tdsOf i : ℤ) : ℚ) * 12 := by
    simp only [calculatePayrollEM]
  have hproj : (calculatePayrollEM i).annual.taxProjected = ((annualTaxOf i : ℤ) : ℚ) := by
    simp only [calculatePayrollEM]
  have hfloor : jround ((annualTaxOf i : ℚ) / 12) = (annualTaxOf i + 6) / 12 := by
    unfold jround
    have harg : (annualTaxOf i : ℚ) / 12 + 1/2 =
        ((annualTaxOf i + 6 : ℤ) : ℚ) / ((12 : ℕ) : ℚ) := by
      push_cast
      ring
    rw [harg, Rat.floor_intCast_div_natCast]
    norm_num
  refine ⟨?_, hproj, ?_, ?_⟩
  · rw [hdedtds, htds]
    push_cast
    ring
  · intro hnd
    rw [hdedtds, hproj, htds, hfloor]
    intro hc
    have hzc : ((annualTaxOf i + 6) / 12) * 12 = annualTaxOf i := by
      exact_mod_cast hc
    omega
  · rw [hdedtds, hproj, htds, hfloor]
    have hzb : |(12 * ((annualTaxOf i + 6) / 12) : ℤ) - annualTaxOf i| ≤ 6 := by
      rw [abs_le]
      omega
    calc |(((annualTaxOf i + 6) / 12 : ℤ) : ℚ) * 12 - ((annualTaxOf i : ℤ) : ℚ)|
        = |(((12 * ((annualTaxOf i + 6) / 12) - annualTaxOf i : ℤ)) : ℚ)| := by
          push_cast
          ring_nf
      _ = ((|12 * ((annualTaxOf i + 6) / 12) - annualTaxOf i| : ℤ) : ℚ) := by
          rw [Int.cast_abs]
      _ ≤ ((6 : ℤ) : ℚ) := by
          exact_mod_cast hzb
      _ = 6 := by norm_num

/--
C9: the three duplicated calculation functions are equivalent: Calculator1's
`usePayrollCalculator` and Calculator2's `calculatePayroll` return equal
results on every input, and EmployeeManager's `calculatePayroll` invoked with
empty custom earnings/deductions agrees with them on every shared field
(factor, flags, all monthly earnings and deductions, grossPayable,
totalDeductions, netPay, and the whole annual view).
-/
theorem three_engines_agree (i : PayInput12) :
    usePayrollCalculatorC1 i = calculatePayrollC2 i ∧
    (calculatePayrollEM (toInputEM i)).factor = (calculatePayrollC2 i).factor ∧
    (calculatePayrollEM (toInputEM i)).flags = (calculatePayrollC2 i).flags ∧
    (calculatePayrollEM (toInputEM i)).monthly.earnings =
      (calculatePayrollC2 i).monthly.earnings ∧
    (calculatePayrollEM (toInputEM i)).monthly.earningsFull =
      (calculatePayrollC2 i).monthly.earningsFull ∧
    (calculatePayrollEM (toInputEM i)).monthly.grossPayable =
      (calculatePayrollC2 i).monthly.grossPayable ∧
    (calculatePayrollEM (toInputEM i)).monthly.deductions =
      (calculatePayrollC2 i).monthly.deductions ∧
    (calculatePayrollEM (toInputEM i)).monthly.totalDeductions =
      (calculatePayrollC2 i).monthly.totalDeductions ∧
    (calculatePayrollEM (toInputEM i)).monthly.netPay =
      (calculatePayrollC2 i).monthly.netPay ∧
    (calculatePayrollEM (toInputEM i)).annual = (calculatePayrollC2 i).annual := by
  obtain ⟨g, f, p, md, pd, ex⟩ := i
  refine ⟨rfl, ?_, ?_, ?_, ?_, ?_, ?_, ?_, ?_, ?_⟩ <;>
    simp [calculatePayrollEM, calculatePayrollC2, toInputEM, factorOf, basicFull, hraFull,
      fixedFull, specialFullRaw, specialFull, annualTaxOf, tdsOf]

/--
C1 counterexample: at the non-integer monthly gross 40000.5 (with no fixed
allowances) the hypotheses of the original claim hold — the gross is
non-negative and the residual `specialFullRaw` is non-negative — yet the
full-month split sums to 40001, not to the gross.
-/
theorem split_noninteger_gross_cex :
    0 ≤ inputFrac.monthlyGross ∧ 0 ≤ specialFullRaw inputFrac ∧
    (basicFull inputFrac : ℚ) + (hraFull inputFrac : ℚ) + (specialFull inputFrac : ℚ) +
      (fixedFull inputFrac : ℚ) ≠ inputFrac.monthlyGross := by
  have hb : basicFull inputFrac = 16000 := by
    simp only [basicFull, inputFrac, defaultPolicy]
    exact jround_eq _ _ (by norm_num) (by norm_num)
  have hh : hraFull inputFrac = 8000 := by
    simp only [hraFull, hb]
    simp only [inputFrac, defaultPolicy]
    exact jround_eq _ _ (by push_cast; norm_num) (by push_cast; norm_num)
  have hf : fixedFull inputFrac = 0 := by
    simp only [fixedFull, inputFrac]
    norm_num [jround_zero]
  have hraw : specialFullRaw inputFrac = 32001/2 := by
    simp only [specialFullRaw, hb, hh, hf]
    simp only [inputFrac]
    push_cast
    norm_num
  have hmax : max (0:ℚ) (32001/2) = 32001/2 := max_eq_right (by norm_num)
  have hsp : specialFull inputFrac = 16001 := by
    simp only [specialFull, hraw, hmax]
    exact jround_eq _ _ (by norm_num) (by norm_num)
  refine ⟨by simp only [inputFrac]; norm_num, by rw [hraw]; norm_num, ?_⟩
  rw [hb, hh, hf, hsp]
  simp only [inputFrac]
  push_cast
  norm_num

/--
C1 witness: at the spec scenario (gross 40000, basic 40%, HRA 50%, fixed
allowances 1600+1250+1150) the split is 16000/8000/4000/12000 and, by the
amended theorem, sums back to the gross.
-/
theorem split_scenario_witness :
    (basicFull inputStd : ℚ) = 16000 ∧ (hraFull inputStd : ℚ) = 8000 ∧
    (fixedFull inputStd : ℚ) = 4000 ∧ (specialFull inputStd : ℚ) = 12000 ∧
    (basicFull inputStd : ℚ) + (hraFull inputStd : ℚ) + (specialFull inputStd : ℚ) +
      (fixedFull inputStd : ℚ) = inputStd.monthlyGross := by
  have hb : basicFull inputStd = 16000 := by
    simp only [basicFull, inputStd, defaultPolicy]
    exact jround_eq _ _ (by norm_num) (by norm_num)
  have hh : hraFull inputStd = 8000 := by
    simp only [hraFull, hb]
    simp only [inputStd, defaultPolicy]
    exact jround_eq _ _ (by push_cast; norm_num) (by push_cast; norm_num)
  have hf : fixedFull inputStd = 4000 := by
    simp only [fixedFull, inputStd]
    exact jround_eq _ _ (by norm_num) (by norm_num)
  have hraw : specialFullRaw inputStd = 12000 := by
    simp only [specialFullRaw, hb, hh, hf]
    simp only [inputStd]
    push_cast
    norm_num
  have hmax : max (0:ℚ) 12000 = 12000 := max_eq_right (by norm_num)
  have hsp : specialFull inputStd = 12000 := by
    simp only [specialFull, hraw, hmax]
    exact jround_eq _ _ (by norm_num) (by norm_num)
  refine ⟨by rw [hb]; norm_num, by rw [hh]; norm_num, by rw [hf]; norm_num,
    by rw [hsp]; norm_num, ?_⟩
  exact split_reconstructs_integer_gross inputStd 40000
    (by simp only [inputStd]; norm_num)
    (by simp only [inputStd]; norm_num)
    (by rw [hraw]; norm_num)

/--
C2 witness: with gross 10000 and a 20000 conveyance allowance the fixed
allowances exceed the gross, Special Allowance is clamped to 0 and the
`fixedTooHigh` flag is raised.
-/
theorem special_clamped_witness :
    (calculatePayrollEM inputClamp).monthly.earningsFull.special = 0 ∧
    (calculatePayrollEM inputClamp).flags.fixedTooHigh = true := by
  apply (special_clamped_and_flag inputClamp).1
  have hb : basicFull inputClamp = 4000 := by
    simp only [basicFull, inputClamp, defaultPolicy]
    exact jround_eq _ _ (by norm_num) (by norm_num)
  have hh : hraFull inputClamp = 2000 := by
    simp only [hraFull, hb]
    simp only [inputClamp, defaultPolicy]
    exact jround_eq _ _ (by push_cast; norm_num) (by push_cast; norm_num)
  have hf : fixedFull inputClamp = 20000 := by
    simp only [fixedFull, inputClamp]
    exact jround_eq _ _ (by norm_num) (by norm_num)
  rw [hb, hh, hf]
  simp only [inputClamp]
  push_cast
  norm_num

/--
C3 witness: at monthly gross 50000 (600000 annual) under the new regime with
standard deduction 50000 the taxable income 550000 is below the 700000
rebate threshold, so annual tax and monthly TDS are both 0.
-/
theorem rebate_witness :
    (calculatePayrollEM inputRebate).annual.taxProjected = 0 ∧
    (calculatePayrollEM inputRebate).monthly.deductions.tds = 0 := by
  apply new_regime_rebate_zero_tax inputRebate rfl rfl
  simp only [inputRebate, defaultPolicy]
  rw [max_le_iff]
  constructor <;> norm_num

/--
C4 witness: at gross 100000 with the default PF policy the PF base is capped
at the 15000 wage ceiling and the employee contribution is 1800.
-/
theorem pf_scenario_witness :
    (calculatePayrollEM inputPf).monthly.deductions.pfEE = 1800 := by
  have hb : basicFull inputPf = 40000 := by
    simp only [basicFull, inputPf, defaultPolicy]
    exact jround_eq _ _ (by norm_num) (by norm_num)
  have hfac : factorOf inputPf = 1 := by
    simp only [factorOf, inputPf, clamp]
    norm_num [max_def, min_def]
  have h := (pf_contribution inputPf).1 rfl
  rw [h, hb, hfac]
  have hmin : (min (((40000 : ℤ) : ℚ) * 1) 15000 : ℚ) = 15000 := by
    push_cast
    norm_num [min_def]
  simp only [inputPf, defaultPolicy, if_true, hmin]
  have hjr : jround ((15000 : ℚ) * 0.12) = 1800 :=
    jround_eq _ _ (by norm_num) (by norm_num)
  rw [hjr]
  norm_num

/--
C5 witness: on the default new-regime slab table (valid: strictly ascending,
unbounded last slab, non-negative rates) the slab tax is monotone between
taxable amounts 400000 and 800000, and non-negative at 400000.
-/
theorem slab_tax_monotone_witness :
    computeSlabTax 400000 defaultSlabsNew ≤ computeSlabTax 800000 defaultSlabsNew ∧
    0 ≤ computeSlabTax 400000 defaultSlabsNew := by
  have h1 : slabsStrictAsc defaultSlabsNew := by
    simp [slabsStrictAsc, uptoLT, defaultSlabsNew]
    norm_num
  have h2 : lastUnbounded defaultSlabsNew := by
    simp [lastUnbounded, defaultSlabsNew]
  have h3 : ratesNonneg defaultSlabsNew := by
    simp [ratesNonneg, defaultSlabsNew]
    norm_num
  have h := computeSlabTax_monotone_nonneg defaultSlabsNew h1 h2 h3
  exact ⟨h.1 400000 800000 (by norm_num) (by norm_num), h.2 400000 (by norm_num)⟩

/--
C6 witness: with 30 payment days out of 30 month days the factor is 1 and
the prorated basic/HRA/special equal the full-month amounts.
-/
theorem proration_witness :
    (calculatePayrollEM inputStd).factor = 1 ∧
    (calculatePayrollEM inputStd).monthly.earnings.basic =
      (calculatePayrollEM inputStd).monthly.earningsFull.basic ∧
    (calculatePayrollEM inputStd).monthly.earnings.hra =
      (calculatePayrollEM inputStd).monthly.earningsFull.hra ∧
    (calculatePayrollEM inputStd).monthly.earnings.special =
      (calculatePayrollEM inputStd).monthly.earningsFull.special :=
  (proration_factor inputStd).2 rfl (by simp only [inputStd]; norm_num)

/--
C8 witness: under the default (new-regime) policy, changing the annual
exemptions from 0 to 50000 leaves the whole result unchanged.
-/
theorem exemption_independent_witness :
    calculatePayrollEM { inputStd with additionalExemptionsAnnual := 0 } =
      calculatePayrollEM { inputStd with additionalExemptionsAnnual := 50000 } :=
  new_regime_ignores_exemptions inputStd 0 50000 rfl

/--
C10 witness: at the standard scenario input (income tax applied) the
annual-view TDS is 12 times the rounded monthly TDS, the projected tax is
the annual tax itself, and they differ by at most 6.
-/
theorem annual_tds_witness :
    (calculatePayrollEM inputStd).annual.deductions.tds =
      ((12 * jround ((annualTaxOf inputStd : ℚ) / 12) : ℤ) : ℚ) ∧
    (calculatePayrollEM inputStd).annual.taxProjected = ((annualTaxOf inputStd : ℤ) : ℚ) ∧
    (¬ (12 : ℤ) ∣ annualTaxOf inputStd →
      (calculatePayrollEM inputStd).annual.deductions.tds ≠
        (calculatePayrollEM inputStd).annual.taxProjected) ∧
    |(calculatePayrollEM inputStd).annual.deductions.tds -
        (calculatePayrollEM inputStd).annual.taxProjected| ≤ 6 :=
  annual_tds_vs_tax_projected inputStd rfl

end CompWise

